import Mathlib

/-!
Shallow embedding of the session/action coordinator of
telegram-rust-client-gui (src/main.rs, `background_loop`) and the
presentation-layer event handler (src/app.rs,
`TelegramApp::handle_backend_events`), together with proofs of the
behavioural properties of the coordinator.

The remote service adapter (the grammers client library) is modelled as a
record of outcome functions: each adapter call the coordinator makes is
read off this record, so a concrete record plays the role of a simulated
adapter run.  Channel sends are modelled as the list of events (resp.
actions) a handler emits while processing one intent; the coordinator
processes intents strictly sequentially, so one step of the model is one
iteration of the source's main loop.
-/

/-- Opaque login token issued by `request_login_code`
(grammers `types::LoginToken`). -/
structure LoginToken where
  tok : Nat
  deriving DecidableEq

/-- Opaque two-factor password token issued inside
`SignInError::PasswordRequired` (grammers `types::PasswordToken`). -/
structure PasswordToken where
  tok : Nat
  deriving DecidableEq

/-- Remote peer handle (grammers `types::Peer`): a stable numeric identity
`id` (source: `chat.id()`) and an optional display name
(source: `chat.name()`). -/
structure Peer where
  id : Int
  name : Option String
  deriving DecidableEq

/-- Message as yielded by the adapter's `iter_messages` stream.  The source
reads `message.id()`, `message.text()`, `message.sender()` (an optional peer
whose name is optional) and `message.date()`.  The date is kept as a numeric
timestamp here; the source formats it for display with `to_string()`, which
is injective, so chronological order is the order of this field. -/
structure Message where
  id : Int
  text : String
  sender : Option Peer
  date : Nat
  deriving DecidableEq

/-- Chat summary sent to the GUI (src/app.rs `ChatInfo`). -/
structure ChatInfo where
  name : String
  id : String
  deriving DecidableEq

/-- Message record sent to the GUI (src/app.rs `MessageInfo`).  The `date`
field is the numeric timestamp whose display string the source stores. -/
structure MessageInfo where
  id : Int
  text : String
  sender : String
  date : Nat
  deriving DecidableEq

/-- Intents from the GUI to the coordinator (src/app.rs `GuiAction`). -/
inductive GuiAction where
  | Configure (api_id : Int) (api_hash : String)
  | Login (phone : String)
  | SendCode (code : String)
  | SendPassword (password : String)
  | RefreshChats
  | SelectChat (chat_id : String)
  | SendMessage (chat_id : String) (text : String)
  | Logout
  | BackToChats
  deriving DecidableEq

/-- Events from the coordinator to the GUI (src/app.rs `BackendEvent`). -/
inductive BackendEvent where
  | Configured
  | CodeSent
  | PasswordRequired
  | LoggedIn
  | ChatsLoaded (chats : List ChatInfo)
  | MessagesLoaded (msgs : List MessageInfo)
  | LoggedOut
  | Error (msg : String)
  deriving DecidableEq

/-- Outcome of the adapter's `sign_in` call: success, the distinguished
`SignInError::PasswordRequired(ptoken)` sub-outcome, or any other error
rendered as its display string. -/
inductive SignInResult where
  | ok
  | passwordRequired (ptoken : PasswordToken)
  | err (msg : String)

/-- Simulated remote service adapter: one field per adapter call the
coordinator makes, holding the outcome the remote service returns during
the step under consideration.  `iter_dialogs` and `iter_messages` are the
finite prefixes the `while let Ok(Some(..))` loops in the source manage to
pull before the stream ends or fails (a mid-stream failure simply truncates
the list, matching the source's best-effort loops). -/
structure Adapter where
  is_authorized : Bool
  request_login_code : String → String → Except String LoginToken
  sign_in : LoginToken → String → SignInResult
  check_password : PasswordToken → String → Except String Unit
  sign_out : Except String Unit
  iter_dialogs : List Peer
  iter_messages : Peer → List Message
  send_message : Peer → String → Except String Unit

/-- Coordinator-owned mutable state (src/main.rs `BackgroundState`).  The
`HashMap<String, Peer>` chat cache is modelled as an association list whose
`mapInsert` keeps keys unique, matching HashMap insert/get semantics. -/
structure BackgroundState where
  api_hash : String
  login_token : Option LoginToken
  password_token : Option PasswordToken
  chat_map : List (String × Peer)
  deriving DecidableEq

/-- Lookup in the chat cache (`state.chat_map.get(&chat_id)`). -/
def mapGet (m : List (String × Peer)) (k : String) : Option Peer :=
  (m.find? (fun p => p.1 == k)).map (fun p => p.2)

/-- Insert into the chat cache (`state.chat_map.insert(id, chat)`):
the new binding replaces any previous binding of the same key. -/
def mapInsert (m : List (String × Peer)) (k : String) (v : Peer) :
    List (String × Peer) :=
  (k, v) :: m.filter (fun p => !(p.1 == k))

/-- Chat summary built from one dialog in the `RefreshChats` loop:
`name = chat.name().unwrap_or("Unknown")`, `id = chat.id().to_string()`. -/
def chatInfoOf (d : Peer) : ChatInfo :=
  { name := d.name.getD ("Unknown"), id := toString d.id }

/-- The `RefreshChats` dialog loop (src/main.rs lines 134-151): for each
dialog pulled, insert its peer under its string id and append its summary;
stop once 50 summaries have been accumulated (`if chat_infos.len() >= 50`,
checked after the push) or the stream ends. -/
def refreshLoop : List Peer → List (String × Peer) → List ChatInfo →
    List (String × Peer) × List ChatInfo
  | [], m, acc => (m, acc)
  | d :: ds, m, acc =>
      if 50 ≤ (acc ++ [chatInfoOf d]).length then
        (mapInsert m (toString d.id) d, acc ++ [chatInfoOf d])
      else
        refreshLoop ds (mapInsert m (toString d.id) d) (acc ++ [chatInfoOf d])

/-- Sender display string of a message:
`message.sender().map(|s| s.name().unwrap_or("Unknown")).unwrap_or("Unknown")`. -/
def senderNameOf (m : Message) : String :=
  (m.sender.map (fun s => s.name.getD ("Unknown"))).getD ("Unknown")

/-- Conversion of one adapter message to the GUI record pushed in the
message loops of `SelectChat` and `SendMessage`. -/
def toMessageInfo (m : Message) : MessageInfo :=
  { id := m.id, text := m.text, sender := senderNameOf m, date := m.date }

/-- The message-fetch loop the source duplicates inline in the `SelectChat`
arm (lines 155-166) and the post-send refetch of the `SendMessage` arm
(lines 177-188): pull at most 50 messages (`iter_messages(peer).limit(50)`),
convert each, then `msgs.reverse()`. -/
def fetchMessages (a : Adapter) (peer : Peer) : List MessageInfo :=
  (((a.iter_messages peer).take 50).map toMessageInfo).reverse

/-- One iteration of the configured main loop (src/main.rs lines 89-211):
processing a single `GuiAction` yields the updated `BackgroundState` and
the list of `BackendEvent`s sent on the outbound channel during that
iteration.  `Configure` and `BackToChats` fall into the source's
`_ => {}` arm. -/
def stepAction (a : Adapter) (s : BackgroundState) :
    GuiAction → BackgroundState × List BackendEvent
  | .Login phone =>
      match a.request_login_code phone s.api_hash with
      | .ok token => ({ s with login_token := some token }, [.CodeSent])
      | .error e => (s, [.Error e])
  | .SendCode code =>
      match s.login_token with
      | some token =>
          match a.sign_in token code with
          | .ok => (s, [.LoggedIn])
          | .passwordRequired ptoken =>
              ({ s with password_token := some ptoken }, [.PasswordRequired])
          | .err e => (s, [.Error e])
      | none => (s, [.Error ("No login token found")])
  | .SendPassword password =>
      match s.password_token with
      | some ptoken =>
          match a.check_password ptoken password with
          | .ok _ => ({ s with password_token := none }, [.LoggedIn])
          | .error e => ({ s with password_token := none }, [.Error e])
      | none => (s, [.Error ("No password token found")])
  | .RefreshChats =>
      ({ s with chat_map := (refreshLoop a.iter_dialogs s.chat_map []).1 },
       [.ChatsLoaded ((refreshLoop a.iter_dialogs s.chat_map []).2)])
  | .SelectChat chat_id =>
      match mapGet s.chat_map chat_id with
      | some peer => (s, [.MessagesLoaded (fetchMessages a peer)])
      | none => (s, [.Error ("Chat not found in cache")])
  | .SendMessage chat_id text =>
      match mapGet s.chat_map chat_id with
      | some peer =>
          match a.send_message peer text with
          | .ok _ => (s, [.MessagesLoaded (fetchMessages a peer)])
          | .error e => (s, [.Error ("Failed to send: " ++ e)])
      | none => (s, [])
  | .Logout =>
      match a.sign_out with
      | .ok _ =>
          ({ s with login_token := none, password_token := none, chat_map := [] },
           [.LoggedOut])
      | .error e => (s, [.Error ("Failed to log out: " ++ e)])
  | .Configure _ _ => (s, [])
  | .BackToChats => (s, [])

/-- Whole-coordinator state: before the first `Configure` the source is in
its configuration wait loop (lines 53-61) and no `BackgroundState` exists
yet; afterwards it runs the main loop over a `BackgroundState`. -/
inductive CoordState where
  | unconfigured
  | configured (s : BackgroundState)
  deriving DecidableEq

/-- One step of the whole coordinator.  From `unconfigured`, a `Configure`
intent breaks the wait loop, builds the fresh `BackgroundState` (the client,
session file and sender pool the source also builds are environment hand-offs
with no coordinator-visible state), emits `Configured`, and emits `LoggedIn`
when the persisted session is already authorized
(`if let Ok(true) = client.is_authorized()`); any other intent is answered
with the not-configured error and the loop continues waiting.  Once
configured, steps are `stepAction`. -/
def stepCoord (a : Adapter) : CoordState → GuiAction → CoordState × List BackendEvent
  | .unconfigured, .Configure _ api_hash =>
      (.configured { api_hash := api_hash, login_token := none,
                     password_token := none, chat_map := [] },
       [BackendEvent.Configured] ++
         (if a.is_authorized then [BackendEvent.LoggedIn] else []))
  | .unconfigured, _ =>
      (.unconfigured, [.Error ("Please configure API ID first")])
  | .configured s, act =>
      (.configured (stepAction a s act).1, (stepAction a s act).2)

/-- Whether an intent is a `Configure` intent. -/
def GuiAction.isConfigure : GuiAction → Bool
  | .Configure _ _ => true
  | _ => false

/-- GUI screen state (src/app.rs `GuiState`). -/
inductive GuiState where
  | Configuration
  | LoginPhone
  | LoginCode
  | LoginPassword
  | LoggedIn
  deriving DecidableEq

/-- GUI-owned state (src/app.rs `TelegramApp`, minus the two channel
endpoints, which are modelled by the action/event lists). -/
structure TelegramAppState where
  state : GuiState
  api_id_input : String
  api_hash_input : String
  phone : String
  code : String
  password : String
  chats : List ChatInfo
  messages : List MessageInfo
  selected_chat : Option ChatInfo
  message_input : String
  status_message : String
  deriving DecidableEq

/-- Processing of one backend event by the GUI
(src/app.rs `handle_backend_events`, lines 86-126): the updated app state
and the list of `GuiAction`s the handler pushes back onto the intent
channel (`self.tx.try_send(..)`). -/
def handleBackendEvent (app : TelegramAppState) :
    BackendEvent → TelegramAppState × List GuiAction
  | .Configured =>
      ({ app with state := .LoginPhone,
                  status_message := "Configuration set. Enter phone number." }, [])
  | .CodeSent =>
      ({ app with state := .LoginCode,
                  status_message := "Code sent! Check Telegram." }, [])
  | .PasswordRequired =>
      ({ app with state := .LoginPassword,
                  status_message := "2FA Password Required." }, [])
  | .LoggedIn =>
      ({ app with state := .LoggedIn,
                  status_message := "Logged in successfully!" },
       [.RefreshChats])
  | .ChatsLoaded chats =>
      ({ app with chats := chats, status_message := "Chats loaded." }, [])
  | .MessagesLoaded msgs =>
      ({ app with messages := msgs, status_message := "Messages loaded." }, [])
  | .LoggedOut =>
      ({ app with state := .LoginPhone, chats := [], messages := [],
                  selected_chat := none, status_message := "Logged out." }, [])
  | .Error msg =>
      ({ app with status_message := "Error: " ++ msg }, [])

/-! ## Chat-cache lemmas -/

/-- A key bound in the cache is still bound (to the new value when the keys
coincide) after an insert. -/
theorem mapGet_insert_isSome (m : List (String × Peer)) (k k' : String) (v : Peer)
    (h : (mapGet m k).isSome) : (mapGet (mapInsert m k' v) k).isSome := by
  by_cases hk : k = k'
  · subst hk
    simp [mapGet, mapInsert, List.find?_cons]
  · rcases hfind : m.find? (fun p => p.1 == k) with _ | p
    · simp only [mapGet, hfind, Option.map_none', Option.isSome_none] at h
      exact absurd h (by decide)
    · have hpk : p.1 = k := by simpa using List.find?_some hfind
      have hmem : p ∈ m := List.mem_of_find?_eq_some hfind
      have hmem' : p ∈ mapInsert m k' v :=
        List.mem_cons_of_mem _ (List.mem_filter.2 ⟨hmem, by simp [hpk, hk]⟩)
      have hsome : ((mapInsert m k' v).find? (fun q => q.1 == k)).isSome :=
        List.find?_isSome.2 ⟨p, hmem', by simpa using hpk⟩
      simp only [mapGet, Option.isSome_map']
      exact hsome

/-- Inserting a binding makes its key found, bound to the new value. -/
theorem mapGet_insert_self (m : List (String × Peer)) (k : String) (v : Peer) :
    mapGet (mapInsert m k v) k = some v := by
  simp [mapGet, mapInsert, List.find?_cons]

/-! ## Refresh-loop lemmas -/

/-- Keys already bound in the cache stay bound across the refresh loop. -/
theorem refreshLoop_mono (ds : List Peer) (m : List (String × Peer))
    (acc : List ChatInfo) (k : String) (h : (mapGet m k).isSome) :
    (mapGet (refreshLoop ds m acc).1 k).isSome := by
  induction ds generalizing m acc with
  | nil => simpa [refreshLoop] using h
  | cons d ds ih =>
      rw [refreshLoop]
      split
      · exact mapGet_insert_isSome _ _ _ _ h
      · exact ih _ _ (mapGet_insert_isSome _ _ _ _ h)

/-- Every summary the refresh loop emits has its id bound in the cache the
loop returns, provided every summary already accumulated does. -/
theorem refreshLoop_inv (ds : List Peer) (m : List (String × Peer))
    (acc : List ChatInfo)
    (hacc : ∀ info ∈ acc, (mapGet m info.id).isSome) :
    ∀ info ∈ (refreshLoop ds m acc).2,
      (mapGet (refreshLoop ds m acc).1 info.id).isSome := by
  induction ds generalizing m acc with
  | nil => simpa [refreshLoop] using hacc
  | cons d ds ih =>
      have hacc' : ∀ info ∈ acc ++ [chatInfoOf d],
          (mapGet (mapInsert m (toString d.id) d) info.id).isSome := by
        intro info hinfo
        rcases List.mem_append.1 hinfo with hmem | hmem
        · exact mapGet_insert_isSome _ _ _ _ (hacc info hmem)
        · rcases List.mem_singleton.1 hmem with rfl
          simp [chatInfoOf, mapGet_insert_self]
      rw [refreshLoop]
      split
      · exact hacc'
      · exact ih _ _ hacc'

/-! ## Test fixtures -/

/-- Baseline simulated adapter in which every remote call fails and every
stream is empty; individual fixtures override the calls they exercise. -/
def stubAdapter : Adapter where
  is_authorized := false
  request_login_code := fun _ _ => Except.error ("offline")
  sign_in := fun _ _ => SignInResult.err ("offline")
  check_password := fun _ _ => Except.error ("offline")
  sign_out := Except.error ("offline")
  iter_dialogs := []
  iter_messages := fun _ => []
  send_message := fun _ _ => Except.error ("offline")

/-- Adapter whose `sign_in` reports that a two-factor password is required. -/
def adapterC1 : Adapter :=
  { stubAdapter with sign_in := fun _ _ => SignInResult.passwordRequired { tok := 2 } }

/-- Coordinator state holding a stored login token. -/
def stateC1 : BackgroundState :=
  { api_hash := "h", login_token := some { tok := 1 },
    password_token := none, chat_map := [] }

/-- Configured coordinator state with an empty chat cache. -/
def stateEmptyCache : BackgroundState :=
  { api_hash := "h", login_token := none, password_token := none, chat_map := [] }

/-- Adapter whose `sign_in` succeeds. -/
def adapterC3 : Adapter :=
  { stubAdapter with sign_in := fun _ _ => SignInResult.ok }

/-! ## Claim C1 -/

/-- Claim C1 (counterexample): the login token is not single-use.  With a
login token stored and the adapter answering `sign_in` with the
password-required outcome, processing `SendCode` leaves the login token in
place (the source only borrows `&state.login_token` and never clears it),
and a second `SendCode` re-uses the prior token — the adapter is consulted
again and answers `PasswordRequired` again — instead of being refused with
the no-login-token error. -/
theorem claim_C1_counterexample :
    ((stepAction adapterC1 stateC1 (GuiAction.SendCode ("11111"))).1).login_token
        = some { tok := 1 } ∧
    (stepAction adapterC1
        ((stepAction adapterC1 stateC1 (GuiAction.SendCode ("11111"))).1)
        (GuiAction.SendCode ("22222"))).2 = [BackendEvent.PasswordRequired] :=
  ⟨rfl, rfl⟩

/-- Claim C1 (amended): processing a `SendCode` intent never changes the
stored login token — it is not invalidated on success, failure, or the
password-required outcome, so a later `SendCode` finds the same token. -/
theorem claim_C1_amended (a : Adapter) (s : BackgroundState) (code : String) :
    ((stepAction a s (GuiAction.SendCode code)).1).login_token = s.login_token := by
  cases hl : s.login_token with
  | none => simp [stepAction, hl]
  | some t => cases hs : a.sign_in t code <;> simp [stepAction, hl, hs]

/-! ## Claim C2 -/

/-- Claim C2 (counterexample): a `SendMessage` whose chat id misses the
cache emits no event at all — in particular no `Error` — and changes no
state: the source's `SendMessage` arm has no `else` branch for the cache
miss, unlike `SelectChat`. -/
theorem claim_C2_counterexample :
    stepAction stubAdapter stateEmptyCache
        (GuiAction.SendMessage ("42") ("hi")) = (stateEmptyCache, []) :=
  rfl

/-- Claim C2 (amended): for every `SendMessage` intent whose chat id is not
a key of the chat cache, the coordinator emits no event and changes no
state — the miss is silently dropped. -/
theorem claim_C2_amended (a : Adapter) (s : BackgroundState) (chat_id text : String)
    (h : mapGet s.chat_map chat_id = none) :
    stepAction a s (GuiAction.SendMessage chat_id text) = (s, []) := by
  simp [stepAction, h]

/-- Claim C2 (witness): the amended statement at a concrete missing id. -/
theorem claim_C2_witness :
    mapGet stateEmptyCache.chat_map ("42") = none ∧
    stepAction stubAdapter stateEmptyCache
        (GuiAction.SendMessage ("42") ("hi")) = (stateEmptyCache, []) :=
  ⟨rfl, claim_C2_amended stubAdapter stateEmptyCache ("42") ("hi") rfl⟩

/-! ## Claim C3 -/

/-- Claim C3 (counterexample): the coordinator itself does not trigger any
internal refresh when it enters the authenticated state.  With a stored
login token and a succeeding `sign_in`, processing `SendCode` emits exactly
`[LoggedIn]` — no `ChatsLoaded` follows within the coordinator's own
processing — and the coordinator state is unchanged, so no internal
refresh intent is pending anywhere in the coordinator. -/
theorem claim_C3_counterexample :
    stepAction adapterC3 stateC1 (GuiAction.SendCode ("00000"))
      = (stateC1, [BackendEvent.LoggedIn]) :=
  rfl

/-- Claim C3 (amended): the automatic refresh is driven by the presentation
layer, not the coordinator: the GUI's handler for `LoggedIn` always pushes
a `RefreshChats` intent back onto the intent channel (no user action), and
the coordinator's processing of `RefreshChats` always emits a `ChatsLoaded`
event; hence `ChatsLoaded` follows `LoggedIn` without any user-originated
intent, via the GUI event handler. -/
theorem claim_C3_amended :
    (∀ app : TelegramAppState,
        (handleBackendEvent app BackendEvent.LoggedIn).2 = [GuiAction.RefreshChats]) ∧
    (∀ (a : Adapter) (s : BackgroundState), ∃ infos,
        (stepAction a s GuiAction.RefreshChats).2 = [BackendEvent.ChatsLoaded infos]) :=
  ⟨fun _ => rfl, fun a s => ⟨(refreshLoop a.iter_dialogs s.chat_map []).2, rfl⟩⟩

/-! ## Claim C4 -/

/-- Claim C4: a `SelectChat` whose id is not a key of the chat cache yields
exactly one `Error` event, no `MessagesLoaded` event, and leaves the whole
coordinator state — chat cache, login token, password token — unchanged. -/
theorem claim_C4 (a : Adapter) (s : BackgroundState) (chat_id : String)
    (h : mapGet s.chat_map chat_id = none) :
    stepAction a s (GuiAction.SelectChat chat_id)
      = (s, [BackendEvent.Error ("Chat not found in cache")]) := by
  simp [stepAction, h]

/-- Claim C4 (witness): the statement at a concrete missing id. -/
theorem claim_C4_witness :
    mapGet stateEmptyCache.chat_map ("42") = none ∧
    stepAction stubAdapter stateEmptyCache (GuiAction.SelectChat ("42"))
      = (stateEmptyCache, [BackendEvent.Error ("Chat not found in cache")]) :=
  ⟨rfl, claim_C4 stubAdapter stateEmptyCache ("42") rfl⟩

/-! ## Claim C5 -/

/-- Claim C5: every chat id in the summary list emitted by a
`RefreshChats` step is a key of the resulting chat cache, so a
`SelectChat` issued immediately afterwards for that id takes the cache-hit
branch and emits a `MessagesLoaded` event (never the cache-miss error). -/
theorem claim_C5 (a : Adapter) (s : BackgroundState) (infos : List ChatInfo)
    (info : ChatInfo)
    (hev : (stepAction a s GuiAction.RefreshChats).2
        = [BackendEvent.ChatsLoaded infos])
    (hmem : info ∈ infos) :
    ∃ msgs, (stepAction a ((stepAction a s GuiAction.RefreshChats).1)
        (GuiAction.SelectChat info.id)).2
      = [BackendEvent.MessagesLoaded msgs] := by
  have hinfos : (refreshLoop a.iter_dialogs s.chat_map []).2 = infos := by
    simpa [stepAction] using hev
  have hsome := refreshLoop_inv a.iter_dialogs s.chat_map [] (by simp) info
      (by rw [hinfos]; exact hmem)
  rcases Option.isSome_iff_exists.1 hsome with ⟨p, hp⟩
  exact ⟨fetchMessages a p, by simp [stepAction, hp]⟩

/-- Peer used by the refresh fixture. -/
def peerC5 : Peer := { id := 7, name := some ("Alice") }

/-- Adapter whose dialog stream yields one peer. -/
def adapterC5 : Adapter := { stubAdapter with iter_dialogs := [peerC5] }

/-- Claim C5 (witness): the statement at a concrete one-dialog refresh. -/
theorem claim_C5_witness :
    ((stepAction adapterC5 stateEmptyCache GuiAction.RefreshChats).2
        = [BackendEvent.ChatsLoaded [chatInfoOf peerC5]]) ∧
    chatInfoOf peerC5 ∈ [chatInfoOf peerC5] ∧
    ∃ msgs, (stepAction adapterC5
        ((stepAction adapterC5 stateEmptyCache GuiAction.RefreshChats).1)
        (GuiAction.SelectChat (chatInfoOf peerC5).id)).2
      = [BackendEvent.MessagesLoaded msgs] :=
  ⟨rfl, by simp,
   claim_C5 adapterC5 stateEmptyCache [chatInfoOf peerC5] (chatInfoOf peerC5)
     rfl (by simp)⟩

/-! ## Claim C6 -/

/-- Claim C6: the batch emitted by a cache-hit `SelectChat`, and the batch
emitted by the refetch after a successful `SendMessage`, are both the
reversal of the first fifty messages of the adapter's stream; hence if the
adapter streams newest-first (non-increasing timestamps), every emitted
batch has non-decreasing timestamps (oldest-first). -/
theorem claim_C6 (a : Adapter) (s : BackgroundState) (chat_id text : String)
    (peer : Peer)
    (hpeer : mapGet s.chat_map chat_id = some peer)
    (hnewest : List.Pairwise (fun m1 m2 => m2.date ≤ m1.date)
        (a.iter_messages peer)) :
    ((stepAction a s (GuiAction.SelectChat chat_id)).2
        = [BackendEvent.MessagesLoaded
            ((((a.iter_messages peer).take 50).map toMessageInfo).reverse)]) ∧
    (a.send_message peer text = Except.ok () →
      (stepAction a s (GuiAction.SendMessage chat_id text)).2
        = [BackendEvent.MessagesLoaded
            ((((a.iter_messages peer).take 50).map toMessageInfo).reverse)]) ∧
    List.Pairwise (fun x y => x.date ≤ y.date) (fetchMessages a peer) := by
  refine ⟨by simp [stepAction, hpeer, fetchMessages],
          fun hsend => by simp [stepAction, hpeer, hsend, fetchMessages], ?_⟩
  unfold fetchMessages
  rw [List.pairwise_reverse, List.pairwise_map]
  exact hnewest.sublist (List.take_sublist _ _)

/-- Peer used by the message fixtures. -/
def peerC6 : Peer := { id := 9, name := some ("Bob") }

/-- Newest-first two-message stream. -/
def msgsC6 : List Message :=
  [{ id := 2, text := "b", sender := some peerC6, date := 5 },
   { id := 1, text := "a", sender := none, date := 3 }]

/-- Adapter streaming `msgsC6` and accepting sends. -/
def adapterC6 : Adapter :=
  { stubAdapter with iter_messages := fun _ => msgsC6,
                     send_message := fun _ _ => Except.ok () }

/-- Coordinator state whose cache holds `peerC6` under id "9". -/
def stateC6 : BackgroundState :=
  { stateEmptyCache with chat_map := [(("9"), peerC6)] }

/-- Claim C6 (witness): the statement at a concrete newest-first stream. -/
theorem claim_C6_witness :
    mapGet stateC6.chat_map ("9") = some peerC6 ∧
    List.Pairwise (fun m1 m2 => m2.date ≤ m1.date)
      (adapterC6.iter_messages peerC6) ∧
    (((stepAction adapterC6 stateC6 (GuiAction.SelectChat ("9"))).2
        = [BackendEvent.MessagesLoaded
            ((((adapterC6.iter_messages peerC6).take 50).map toMessageInfo).reverse)]) ∧
     (adapterC6.send_message peerC6 ("hi") = Except.ok () →
       (stepAction adapterC6 stateC6 (GuiAction.SendMessage ("9") ("hi"))).2
         = [BackendEvent.MessagesLoaded
             ((((adapterC6.iter_messages peerC6).take 50).map toMessageInfo).reverse)]) ∧
     List.Pairwise (fun x y => x.date ≤ y.date) (fetchMessages adapterC6 peerC6)) :=
  ⟨rfl, by decide, claim_C6 adapterC6 stateC6 ("9") ("hi") peerC6 rfl (by decide)⟩

/-! ## Claim C7 -/

/-- Claim C7: a `SendPassword` processed with a stored password token
consumes the token unconditionally (the source calls
`state.password_token.take()` before the remote call), so whether the
verification succeeds or fails the stored token is `none` afterwards, and
a second `SendPassword` is answered with the missing-token error and
leaves the state unchanged instead of calling the adapter. -/
theorem claim_C7 (a : Adapter) (s : BackgroundState) (pt : PasswordToken)
    (pw : String) (h : s.password_token = some pt) :
    ((stepAction a s (GuiAction.SendPassword pw)).1).password_token = none ∧
    ∀ (a2 : Adapter) (pw2 : String),
      stepAction a2 ((stepAction a s (GuiAction.SendPassword pw)).1)
          (GuiAction.SendPassword pw2)
        = ((stepAction a s (GuiAction.SendPassword pw)).1,
           [BackendEvent.Error ("No password token found")]) := by
  have hnone : ((stepAction a s (GuiAction.SendPassword pw)).1).password_token
      = none := by
    cases hc : a.check_password pt pw <;> simp [stepAction, h, hc]
  have refuse : ∀ (a2 : Adapter) (s2 : BackgroundState) (pw2 : String),
      s2.password_token = none →
      stepAction a2 s2 (GuiAction.SendPassword pw2)
        = (s2, [BackendEvent.Error ("No password token found")]) := by
    intro a2 s2 pw2 h2
    simp [stepAction, h2]
  exact ⟨hnone, fun a2 pw2 => refuse a2 _ pw2 hnone⟩

/-- Coordinator state holding a stored password token. -/
def stateC7 : BackgroundState :=
  { stateEmptyCache with password_token := some { tok := 4 } }

/-- Claim C7 (witness): the statement at a concrete failing verification. -/
theorem claim_C7_witness :
    stateC7.password_token = some { tok := 4 } ∧
    ((stepAction stubAdapter stateC7 (GuiAction.SendPassword ("pw"))).1).password_token
        = none ∧
    stepAction stubAdapter
        ((stepAction stubAdapter stateC7 (GuiAction.SendPassword ("pw"))).1)
        (GuiAction.SendPassword ("pw2"))
      = ((stepAction stubAdapter stateC7 (GuiAction.SendPassword ("pw"))).1,
         [BackendEvent.Error ("No password token found")]) :=
  ⟨rfl, (claim_C7 stubAdapter stateC7 { tok := 4 } ("pw") rfl).1,
   (claim_C7 stubAdapter stateC7 { tok := 4 } ("pw") rfl).2 stubAdapter ("pw2")⟩

/-! ## Claim C8 -/

/-- Claim C8: a `SendMessage` whose chat id hits the cache emits, on a
successful remote send, exactly one `MessagesLoaded` event carrying a fresh
refetch of the last fifty messages (no local append, state unchanged); on a
failed send it emits exactly one `Error` event and no `MessagesLoaded`
(no refetch), also with state unchanged. -/
theorem claim_C8 (a : Adapter) (s : BackgroundState) (chat_id text : String)
    (peer : Peer) (h : mapGet s.chat_map chat_id = some peer) :
    (a.send_message peer text = Except.ok () →
      stepAction a s (GuiAction.SendMessage chat_id text)
        = (s, [BackendEvent.MessagesLoaded (fetchMessages a peer)])) ∧
    (∀ e, a.send_message peer text = Except.error e →
      stepAction a s (GuiAction.SendMessage chat_id text)
        = (s, [BackendEvent.Error ("Failed to send: " ++ e)])) := by
  constructor
  · intro hsend
    simp [stepAction, h, hsend]
  · intro e hsend
    simp [stepAction, h, hsend]

/-- Adapter whose `send_message` fails. -/
def adapterC8 : Adapter :=
  { stubAdapter with iter_messages := fun _ => msgsC6,
                     send_message := fun _ _ => Except.error ("boom") }

/-- Claim C8 (witness): the statement at a concrete succeeding send and a
concrete failing send. -/
theorem claim_C8_witness :
    mapGet stateC6.chat_map ("9") = some peerC6 ∧
    stepAction adapterC6 stateC6 (GuiAction.SendMessage ("9") ("hi"))
      = (stateC6, [BackendEvent.MessagesLoaded (fetchMessages adapterC6 peerC6)]) ∧
    stepAction adapterC8 stateC6 (GuiAction.SendMessage ("9") ("hi"))
      = (stateC6, [BackendEvent.Error ("Failed to send: " ++ "boom")]) :=
  ⟨rfl, (claim_C8 adapterC6 stateC6 ("9") ("hi") peerC6 rfl).1 rfl,
   (claim_C8 adapterC8 stateC6 ("9") ("hi") peerC6 rfl).2 ("boom") rfl⟩

/-! ## Claim C9 -/

/-- Claim C9: before the first `Configure` intent, every other intent is
answered with the explicit not-configured error event — not silently
dropped, not queued — and the coordinator stays in its unconfigured state
(no coordinator state exists yet to change). -/
theorem claim_C9 (a : Adapter) (act : GuiAction) (h : act.isConfigure = false) :
    stepCoord a CoordState.unconfigured act
      = (CoordState.unconfigured,
         [BackendEvent.Error ("Please configure API ID first")]) := by
  cases act <;> simp_all [stepCoord, GuiAction.isConfigure]

/-- Claim C9 (witness): the statement at a concrete pre-configuration
intent. -/
theorem claim_C9_witness :
    GuiAction.isConfigure GuiAction.RefreshChats = false ∧
    stepCoord stubAdapter CoordState.unconfigured GuiAction.RefreshChats
      = (CoordState.unconfigured,
         [BackendEvent.Error ("Please configure API ID first")]) :=
  ⟨rfl, claim_C9 stubAdapter GuiAction.RefreshChats rfl⟩

/-! ## Claim C10 -/

/-- Claim C10: a `Configure` intent arriving after configuration has
completed falls into the main loop's catch-all arm: the coordinator emits
no event — neither `Configured` nor `Error` — and its state, including the
stored api hash, both tokens and the chat cache, is unchanged. -/
theorem claim_C10 (a : Adapter) (s : BackgroundState) (api_id : Int)
    (api_hash : String) :
    stepCoord a (CoordState.configured s) (GuiAction.Configure api_id api_hash)
      = (CoordState.configured s, []) :=
  rfl
